import Mathlib

/-!
Shallow embedding of `src/timelapse_viewer.cpp` (class `TimelapseViewer` and
`main`): frame store loading, playback state machine, frame-rate clock,
measured-FPS window, and aspect-preserving presenter.  Wall-clock times are
modelled as natural numbers of milliseconds; the float scaling arithmetic of
`renderCurrentFrame` is modelled over the exact rationals.
-/

namespace TimelapseViewer

/-- A decoded, presentable frame: intrinsic pixel width and height
(the data `SDL_QueryTexture` reports for a texture). -/
structure Frame where
  width : Nat
  height : Nat
  deriving DecidableEq, Repr

/-- The mutable fields of the `TimelapseViewer` class that the playback loop
touches.  `textures` has `none` entries where texture creation failed
(`nullptr` slots). -/
structure ViewerState where
  imagePaths : List String
  textures : List (Option Frame)
  currentIndex : Nat
  running : Bool
  playing : Bool
  targetFPS : Nat
  windowWidth : Nat
  windowHeight : Nat
  lastFrameTime : Nat
  frameCount : Nat
  fpsTimer : Nat
  title : Option Nat
  deriving Repr

/-- Raw SDL events the loop distinguishes (lines 154-178 of the source). -/
inductive Event where
  | quit
  | keyEscape
  | keySpace
  | keyRight
  | keyLeft
  | other
  deriving DecidableEq, Repr

/-- Event handling from the inner `SDL_PollEvent` loop: quit/escape stop the
loop, space toggles play, right/left step the index only while paused
(`if (!playing)`).  The `renderCurrentFrame()` calls mutate no state. -/
def handleEvent (s : ViewerState) (e : Event) : ViewerState :=
  match e with
  | .quit => { s with running := false }
  | .keyEscape => { s with running := false }
  | .keySpace => { s with playing := !s.playing }
  | .keyRight =>
      if s.playing then s
      else { s with currentIndex := (s.currentIndex + 1) % s.imagePaths.length }
  | .keyLeft =>
      if s.playing then s
      else { s with currentIndex :=
              (s.currentIndex + s.imagePaths.length - 1) % s.imagePaths.length }
  | .other => s

/-- Integer division `int msPerFrame = 1000 / targetFPS;` (line 188). -/
def msPerFrame (fps : Nat) : Nat := 1000 / fps

/-- Whether the clock-driven advance fires at wall-clock time `t`
(`elapsed >= msPerFrame` inside `if (playing)`, line 190). -/
def tickFires (s : ViewerState) (t : Nat) : Bool :=
  s.playing && decide (msPerFrame s.targetFPS ≤ t - s.lastFrameTime)

/-- One pass of the `if (playing)` block of `run()` (lines 182-206) at
wall-clock time `t` (milliseconds): advance the frame when due, resetting
`lastFrameTime` to `t`, then close the one-second FPS measurement window when
`duration_cast<seconds>(t - fpsTimer) >= 1`, publishing
`frameCount / fpsDuration` as the window title. -/
def tick (s : ViewerState) (t : Nat) : ViewerState :=
  if s.playing then
    let s1 :=
      if tickFires s t then
        { s with lastFrameTime := t,
                 currentIndex := (s.currentIndex + 1) % s.imagePaths.length,
                 frameCount := s.frameCount + 1 }
      else s
    let fpsDuration := (t - s1.fpsTimer) / 1000
    if 1 ≤ fpsDuration then
      { s1 with title := some (s1.frameCount / fpsDuration),
                frameCount := 0,
                fpsTimer := t }
    else s1
  else s

/-- The wall-clock times, drawn from an observation schedule, at which the
clock-driven advance fires. -/
def fireTimes (s : ViewerState) : List Nat → List Nat
  | [] => []
  | t :: ts =>
      if tickFires s t then t :: fireTimes (tick s t) ts
      else fireTimes (tick s t) ts

/-- The viewer state right after a successful `initialize`: field initialisers
of the class (`currentIndex = 0`, `running = true`, `playing = false`,
`frameCount = 0` at the top of `run()`), with the loaded paths and textures. -/
def initialState (paths : List String) (textures : List (Option Frame))
    (fps w h : Nat) : ViewerState :=
  { imagePaths := paths
    textures := textures
    currentIndex := 0
    running := true
    playing := false
    targetFPS := fps
    windowWidth := w
    windowHeight := h
    lastFrameTime := 0
    frameCount := 0
    fpsTimer := 0
    title := none }

/-- The draw rectangle handed to `SDL_RenderCopy` (an `SDL_Rect`). -/
structure RenderRect where
  x : Nat
  y : Nat
  w : Nat
  h : Nat
  deriving DecidableEq, Repr

/-- The aspect-preserving scaling and centering of `renderCurrentFrame`
(lines 220-240), with the float arithmetic modelled exactly over ℚ:
`scale = min(winW/texW, winH/texH)`, sizes truncated toward zero
(`static_cast<int>`), position by integer division. -/
def renderRect (texW texH winW winH : Nat) : RenderRect :=
  let scaleX : ℚ := (winW : ℚ) / (texW : ℚ)
  let scaleY : ℚ := (winH : ℚ) / (texH : ℚ)
  let scale : ℚ := min scaleX scaleY
  let renderW : Nat := (⌊(texW : ℚ) * scale⌋).toNat
  let renderH : Nat := (⌊(texH : ℚ) * scale⌋).toNat
  { x := (winW - renderW) / 2
    y := (winH - renderH) / 2
    w := renderW
    h := renderH }

/-- The draw routine `renderCurrentFrame` (lines 214-245): a missing slot
(`currentIndex >= textures.size()`) or a null texture is an early return that
draws nothing; otherwise the frame is drawn at its scaled, centered
rectangle.  The C++ method mutates no playback state, so it is embedded as a
pure function of the state. -/
def renderCurrentFrame (s : ViewerState) : Option RenderRect :=
  match s.textures.get? s.currentIndex with
  | none => none
  | some none => none
  | some (some f) => some (renderRect f.width f.height s.windowWidth s.windowHeight)

/-! ### Directory scanning and image loading (lines 86-139) -/

/-- What `fs::directory_iterator` reports about one direct entry of the
scanned directory. -/
inductive EntryKind where
  | regularFile
  | directory
  | other
  deriving DecidableEq, Repr

/-- One direct entry of the scanned directory. -/
structure DirEntry where
  name : String
  kind : EntryKind
  deriving DecidableEq, Repr

/-- A directory as `fs::directory_iterator` sees it: its direct entries, plus
the contents of each subdirectory (which the non-recursive iterator never
visits). -/
structure Directory where
  entries : List DirEntry
  subContents : String → List DirEntry

/-- Extension extraction as `std::filesystem::path::extension()` does it on a
filename: the suffix from the
last dot (inclusive); empty for `.`, `..`, dotless names, and names whose
only dot is the leading one (hidden files). -/
def extensionOf (cs : List Char) : List Char :=
  if cs = ['.'] ∨ cs = ['.', '.'] then []
  else
    match cs.reverse.findIdx? (· = '.') with
    | none => []
    | some k => if k = cs.length - 1 then [] else '.' :: (cs.reverse.take k).reverse

/-- The fixed allow-list the scan compares the lowercased extension against
(lines 98-99). -/
def allowedExtensions : List (List Char) :=
  [".jpg".toList, ".jpeg".toList, ".png".toList,
   ".bmp".toList, ".tif".toList, ".tiff".toList]

/-- The extension filter of the scan: lowercase the entry's extension
(`std::transform` with `::tolower`) and compare against the allow-list. -/
def isImageFile (filename : String) : Bool :=
  let ext := (extensionOf filename.toList).map Char.toLower
  decide (ext ∈ allowedExtensions)

/-- The candidate-collection loop (lines 93-103): walk the direct entries of
the directory, keep regular files whose lowercased extension is allowed, and
record their full paths. -/
def scanDirectory (dirPath : String) (d : Directory) : List String :=
  (d.entries.filter fun e =>
      (decide (e.kind = .regularFile)) && isImageFile e.name).map
    fun e => dirPath ++ "/" ++ e.name

/-- Lexicographic byte-wise comparison of two filenames, the order
`std::string::operator<` gives `std::sort` on line 111. -/
def lexLe : List Char → List Char → Bool
  | [], _ => true
  | _ :: _, [] => false
  | a :: as, b :: bs =>
    if a < b then true else if b < a then false else lexLe as bs

/-- Insert a path into an already sorted list of paths. -/
def insertSorted (a : String) : List String → List String
  | [] => [a]
  | b :: bs => if lexLe a.toList b.toList then a :: b :: bs else b :: insertSorted a bs

/-- The sort `std::sort(imagePaths.begin(), imagePaths.end())` (line 111):
order the candidate paths lexicographically. -/
def sortPaths (paths : List String) : List String :=
  paths.foldr insertSorted []

/-- The load routine `loadImagesFromDirectory` (lines 86-139) after the
directory checks:
fail when zero candidate paths were found, otherwise sort the paths and
decode each one, leaving a `none` (`nullptr`) slot when the decode
collaborator fails; decode failures are logged and skipped (`continue`) and
never fail the load. -/
def loadImagesFromDirectory (decode : String → Option Frame) (dirPath : String)
    (d : Directory) : Option (List (Option Frame)) :=
  let imagePaths := scanDirectory dirPath d
  if imagePaths.isEmpty then none
  else some ((sortPaths imagePaths).map decode)

/-- Number of decode failures the load warns about (line 120). -/
def loadWarningCount (decode : String → Option Frame) (dirPath : String)
    (d : Directory) : Nat :=
  ((scanDirectory dirPath d).filter fun p => (decode p).isNone).length

/-- The `SDLK_RIGHT` command. -/
def stepForward (s : ViewerState) : ViewerState := handleEvent s .keyRight

/-- The `SDLK_LEFT` command. -/
def stepBackward (s : ViewerState) : ViewerState := handleEvent s .keyLeft

/-! ### Concrete example inputs -/

/-- A playing viewer at the default 240 FPS target, clock at 0. -/
def clockDemoState : ViewerState :=
  { initialState ["a"] [none] 240 1280 720 with playing := true }

/-- A paused viewer over three frames. -/
def pausedDemoState : ViewerState :=
  initialState ["a", "b", "c"] [none, none, none] 240 1280 720

/-- A playing viewer whose current measurement window has counted 30
advances and is observed with zero elapsed wall-clock time
(`t = fpsTimer = 500`); the 1 FPS target keeps the frame advance from
firing at that instant. -/
def fpsZeroWindowState : ViewerState :=
  { initialState ["a"] [none] 1 1280 720 with
      playing := true, frameCount := 30, fpsTimer := 500, lastFrameTime := 500 }

/-- A playing viewer whose measurement window has counted 30 advances and is
observed at `t = 1000` ms, exactly 1.0 s after the window opened; the frame
advance does not fire at that observation (1 ms elapsed < 4 ms interval). -/
def fpsOneSecondState : ViewerState :=
  { initialState ["a"] [none] 240 1280 720 with
      playing := true, frameCount := 30, fpsTimer := 0, lastFrameTime := 999 }

/-- A viewer whose only texture slot is null (`nullptr` after a failed
decode). -/
def nullTextureState : ViewerState :=
  initialState ["a"] [none] 240 1280 720

/-- A directory holding five regular `.jpg` files. -/
def dirFiveJpegs : Directory :=
  ⟨[⟨"1.jpg", .regularFile⟩, ⟨"2.jpg", .regularFile⟩, ⟨"3.jpg", .regularFile⟩,
    ⟨"4.jpg", .regularFile⟩, ⟨"5.jpg", .regularFile⟩], fun _ => []⟩

/-- A decode collaborator failing on 2 of the 5 paths of `dirFiveJpegs`. -/
def decodeTwoFail : String → Option Frame :=
  fun p => if p = "d/2.jpg" ∨ p = "d/4.jpg" then none else some ⟨2, 1⟩

/-- A directory with one matching regular file and one subdirectory that
itself holds a matching file. -/
def dirWithSubdir : Directory :=
  ⟨[⟨"a.JPG", .regularFile⟩, ⟨"s", .directory⟩],
   fun n => if n = "s" then [⟨"b.jpg", .regularFile⟩] else []⟩

end TimelapseViewer

namespace TimelapseViewer

/-! ## Helper lemmas -/

/-- While paused, `SDLK_RIGHT` advances the index by one modulo the number of
images and changes nothing else. -/
theorem stepForward_paused (s : ViewerState) (h : s.playing = false) :
    stepForward s = { s with currentIndex := (s.currentIndex + 1) % s.imagePaths.length } := by
  simp [stepForward, handleEvent, h]

/-- While paused, `SDLK_LEFT` steps the index back by one modulo the number of
images and changes nothing else. -/
theorem stepBackward_paused (s : ViewerState) (h : s.playing = false) :
    stepBackward s =
      { s with currentIndex :=
          (s.currentIndex + s.imagePaths.length - 1) % s.imagePaths.length } := by
  simp [stepBackward, handleEvent, h]

/-- Iterating the paused forward step `k` times adds `k` to the index modulo
the number of images, and preserves the paused flag and the path list. -/
theorem stepForward_iterate (k : Nat) :
    ∀ s : ViewerState, s.playing = false → s.currentIndex < s.imagePaths.length →
      (stepForward^[k] s).currentIndex = (s.currentIndex + k) % s.imagePaths.length ∧
      (stepForward^[k] s).playing = false ∧
      (stepForward^[k] s).imagePaths = s.imagePaths := by
  induction k with
  | zero => intro s h hi; exact ⟨(Nat.mod_eq_of_lt hi).symm, h, rfl⟩
  | succ k ih =>
    intro s h hi
    have hn : 0 < s.imagePaths.length := by omega
    have hs := stepForward_paused s h
    have h1 : (stepForward s).playing = false := by rw [hs]; exact h
    have h2 : (stepForward s).currentIndex < (stepForward s).imagePaths.length := by
      rw [hs]; exact Nat.mod_lt _ hn
    obtain ⟨ha, hb, hc⟩ := ih (stepForward s) h1 h2
    rw [Function.iterate_succ_apply]
    refine ⟨?_, hb, by rw [hc, hs]⟩
    rw [ha, hs]
    show ((s.currentIndex + 1) % s.imagePaths.length + k) % s.imagePaths.length =
      (s.currentIndex + (k + 1)) % s.imagePaths.length
    rw [Nat.mod_add_mod]
    congr 1
    omega

/-- Iterating the paused backward step `k` times adds `k * (N - 1)` to the
index modulo `N`, and preserves the paused flag and the path list. -/
theorem stepBackward_iterate (k : Nat) :
    ∀ s : ViewerState, s.playing = false → s.currentIndex < s.imagePaths.length →
      (stepBackward^[k] s).currentIndex =
        (s.currentIndex + k * (s.imagePaths.length - 1)) % s.imagePaths.length ∧
      (stepBackward^[k] s).playing = false ∧
      (stepBackward^[k] s).imagePaths = s.imagePaths := by
  induction k with
  | zero => intro s h hi; refine ⟨?_, h, rfl⟩; simp [Nat.mod_eq_of_lt hi]
  | succ k ih =>
    intro s h hi
    have hn : 0 < s.imagePaths.length := by omega
    have hs := stepBackward_paused s h
    have h1 : (stepBackward s).playing = false := by rw [hs]; exact h
    have h2 : (stepBackward s).currentIndex < (stepBackward s).imagePaths.length := by
      rw [hs]; exact Nat.mod_lt _ hn
    obtain ⟨ha, hb, hc⟩ := ih (stepBackward s) h1 h2
    rw [Function.iterate_succ_apply]
    refine ⟨?_, hb, by rw [hc, hs]⟩
    rw [ha, hs]
    show ((s.currentIndex + s.imagePaths.length - 1) % s.imagePaths.length +
        k * (s.imagePaths.length - 1)) % s.imagePaths.length =
      (s.currentIndex + (k + 1) * (s.imagePaths.length - 1)) % s.imagePaths.length
    rw [Nat.mod_add_mod]
    congr 1
    obtain ⟨m, hm⟩ : ∃ m, s.imagePaths.length = m + 1 := ⟨s.imagePaths.length - 1, by omega⟩
    rw [hm]
    simp only [Nat.add_sub_cancel]
    ring_nf
    omega

/-- Inserting a path into a sorted list yields a permutation of pushing it in
front. -/
theorem insertSorted_perm (a : String) (l : List String) :
    (insertSorted a l).Perm (a :: l) := by
  induction l with
  | nil => exact List.Perm.refl _
  | cons b bs ih =>
    unfold insertSorted
    split
    · exact List.Perm.refl _
    · exact (ih.cons b).trans (List.Perm.swap a b bs)

/-- Sorting the candidate paths permutes them. -/
theorem sortPaths_perm (l : List String) : (sortPaths l).Perm l := by
  induction l with
  | nil => exact List.Perm.refl _
  | cons x xs ih => exact (insertSorted_perm x (sortPaths xs)).trans (ih.cons x)

/-! ## Claim theorems -/

/-- Claim C1, counterexample: with a directory of five candidate `.jpg` files
and a decode collaborator that fails on every source (zero sources decode
successfully), the load does not fail with a `LoadError`: it succeeds and
returns a texture list of length 5 whose slots are all null, so the resulting
sequence is neither absent nor shorter than the input list. -/
theorem load_all_failures_not_error :
    loadImagesFromDirectory (fun _ => none) "d" dirFiveJpegs =
      some [none, none, none, none, none] ∧
    loadImagesFromDirectory (fun _ => none) "d" dirFiveJpegs ≠ none := by
  constructor
  · decide
  · decide

/-- Claim C1, amended: the load fails exactly when the directory scan found
zero candidate paths; decode failures never fail the load — each failing
source keeps a null slot after a warning, so the returned texture list always
has the same length as the candidate list, with one null entry (and one
warning) per failing source. -/
theorem load_fails_iff_no_candidates (decode : String → Option Frame)
    (dirPath : String) (d : Directory) :
    (loadImagesFromDirectory decode dirPath d = none ↔ scanDirectory dirPath d = []) ∧
    (∀ ts, loadImagesFromDirectory decode dirPath d = some ts →
        ts.length = (scanDirectory dirPath d).length ∧
        (ts.filter Option.isNone).length = loadWarningCount decode dirPath d) := by
  constructor
  · unfold loadImagesFromDirectory
    by_cases h : (scanDirectory dirPath d).isEmpty = true
    · rw [if_pos h]
      simp [List.isEmpty_iff.mp h]
    · rw [if_neg h]
      rw [List.isEmpty_iff] at h
      simp [h]
  · intro ts hts
    unfold loadImagesFromDirectory at hts
    by_cases h : (scanDirectory dirPath d).isEmpty
    · simp [h] at hts
    · simp only [h, if_neg, Bool.false_eq_true, not_false_eq_true, if_false,
        Option.some.injEq] at hts
      subst hts
      constructor
      · rw [List.length_map, (sortPaths_perm _).length_eq]
      · rw [List.filter_map, List.length_map, loadWarningCount]
        exact ((sortPaths_perm (scanDirectory dirPath d)).filter _).length_eq

/-- Claim C1, witness: with 2 of the 5 sources of `dirFiveJpegs` failing to
decode, the load succeeds with 5 texture slots, 2 of them null, matching the
2 logged warnings. -/
theorem load_fails_iff_witness :
    ([some ⟨2, 1⟩, none, some ⟨2, 1⟩, none, some ⟨2, 1⟩] : List (Option Frame)).length =
      (scanDirectory "d" dirFiveJpegs).length ∧
    (([some ⟨2, 1⟩, none, some ⟨2, 1⟩, none, some ⟨2, 1⟩] :
        List (Option Frame)).filter Option.isNone).length =
      loadWarningCount decodeTwoFail "d" dirFiveJpegs :=
  (load_fails_iff_no_candidates decodeTwoFail "d" dirFiveJpegs).2 _ (by decide)

/-- Claim C2: while playing, the frame advance fires exactly when the elapsed
wall-clock time since the last advance reaches `intervalMs = 1000 / F`; on
firing, the index advances by one modulo the number of images and the
last-advance timestamp resets to the current time (not incremented by the
interval); below the interval nothing changes.  Concretely, at `F = 240`
(interval 4 ms) with observation times `[0, 3, 5, 9]` ms, advances fire
exactly at 5 and 9 — two advances. -/
theorem clock_advance (s : ViewerState) (t : Nat) (hplay : s.playing = true) :
    (msPerFrame s.targetFPS ≤ t - s.lastFrameTime →
        (tick s t).currentIndex = (s.currentIndex + 1) % s.imagePaths.length ∧
        (tick s t).lastFrameTime = t) ∧
    (t - s.lastFrameTime < msPerFrame s.targetFPS →
        (tick s t).currentIndex = s.currentIndex ∧
        (tick s t).lastFrameTime = s.lastFrameTime) ∧
    fireTimes clockDemoState [0, 3, 5, 9] = [5, 9] := by
  refine ⟨?_, ?_, by decide⟩
  · intro hle
    have hf : tickFires s t = true := by
      simp [tickFires, hplay, hle]
    simp [tick, hplay, hf]
    constructor <;> split <;> simp
  · intro hlt
    have hf : tickFires s t = false := by
      simp [tickFires, hplay]
      omega
    simp [tick, hplay, hf]
    constructor <;> split <;> simp

/-- Claim C2, witness: at 240 FPS with the last advance at time 0, observing
time 5 ms fires the advance, wraps the single-image index, and resets the
timestamp to 5. -/
theorem clock_advance_witness :
    (tick clockDemoState 5).currentIndex = (0 + 1) % 1 ∧
    (tick clockDemoState 5).lastFrameTime = 5 :=
  (clock_advance clockDemoState 5 rfl).1 (by decide)

/-- Claim C3: for a frame with positive intrinsic size, the draw rectangle
uses the uniform scale `min(winW/texW, winH/texH)`, its size is the frame
size times the scale truncated toward zero, it is centered by integer
division, and it never exceeds the viewport; a 4000×3000 frame in an 800×800
viewport yields an 800×600 rectangle at (0, 100).  The C++ float arithmetic
is modelled exactly over ℚ. -/
theorem presenter_scaling (texW texH winW winH : Nat)
    (hw : 0 < texW) (hh : 0 < texH) :
    (renderRect texW texH winW winH).w =
      (⌊(texW : ℚ) * min ((winW : ℚ) / (texW : ℚ)) ((winH : ℚ) / (texH : ℚ))⌋).toNat ∧
    (renderRect texW texH winW winH).h =
      (⌊(texH : ℚ) * min ((winW : ℚ) / (texW : ℚ)) ((winH : ℚ) / (texH : ℚ))⌋).toNat ∧
    (renderRect texW texH winW winH).x =
      (winW - (renderRect texW texH winW winH).w) / 2 ∧
    (renderRect texW texH winW winH).y =
      (winH - (renderRect texW texH winW winH).h) / 2 ∧
    (renderRect texW texH winW winH).w ≤ winW ∧
    (renderRect texW texH winW winH).h ≤ winH ∧
    renderRect 4000 3000 800 800 = ⟨0, 100, 800, 600⟩ := by
  refine ⟨rfl, rfl, rfl, rfl, ?_, ?_, ?_⟩
  · have h1 : (texW : ℚ) * min ((winW : ℚ) / (texW : ℚ)) ((winH : ℚ) / (texH : ℚ)) ≤
        (winW : ℚ) := by
      calc (texW : ℚ) * min ((winW : ℚ) / (texW : ℚ)) ((winH : ℚ) / (texH : ℚ)) ≤
            (texW : ℚ) * ((winW : ℚ) / (texW : ℚ)) :=
            mul_le_mul_of_nonneg_left (min_le_left _ _) (by positivity)
        _ = (winW : ℚ) := by
            field_simp
    have h2 : (⌊(texW : ℚ) * min ((winW : ℚ) / (texW : ℚ)) ((winH : ℚ) / (texH : ℚ))⌋) ≤
        (winW : ℤ) := by
      have := Int.floor_le_floor h1
      rwa [Int.floor_natCast] at this
    exact Int.toNat_le.mpr h2
  · have h1 : (texH : ℚ) * min ((winW : ℚ) / (texW : ℚ)) ((winH : ℚ) / (texH : ℚ)) ≤
        (winH : ℚ) := by
      calc (texH : ℚ) * min ((winW : ℚ) / (texW : ℚ)) ((winH : ℚ) / (texH : ℚ)) ≤
            (texH : ℚ) * ((winH : ℚ) / (texH : ℚ)) :=
            mul_le_mul_of_nonneg_left (min_le_right _ _) (by positivity)
        _ = (winH : ℚ) := by
            field_simp
    have h2 : (⌊(texH : ℚ) * min ((winW : ℚ) / (texW : ℚ)) ((winH : ℚ) / (texH : ℚ))⌋) ≤
        (winH : ℤ) := by
      have := Int.floor_le_floor h1
      rwa [Int.floor_natCast] at this
    exact Int.toNat_le.mpr h2
  · have hW : (⌊((4000 : ℕ) : ℚ) * min (((800 : ℕ) : ℚ) / ((4000 : ℕ) : ℚ))
        (((800 : ℕ) : ℚ) / ((3000 : ℕ) : ℚ))⌋) = 800 := by
      norm_num [min_def]
    have hH : (⌊((3000 : ℕ) : ℚ) * min (((800 : ℕ) : ℚ) / ((4000 : ℕ) : ℚ))
        (((800 : ℕ) : ℚ) / ((3000 : ℕ) : ℚ))⌋) = 600 := by
      norm_num [min_def]
    simp only [renderRect]
    rw [hW, hH]
    rfl

/-- Claim C3, witness: the 4000×3000 frame in the 800×800 viewport draws as
an 800×600 rectangle at (0, 100). -/
theorem presenter_scaling_witness :
    renderRect 4000 3000 800 800 = ⟨0, 100, 800, 600⟩ :=
  (presenter_scaling 4000 3000 800 800 (by norm_num) (by norm_num)).2.2.2.2.2.2

end TimelapseViewer

namespace TimelapseViewer

/-- Claim C4: for every paused state with a valid index over `N` images,
stepping forward `N` times returns the index to its starting value, and so
does stepping backward `N` times (wrap-around correctness). -/
theorem step_wraparound (s : ViewerState) (h : s.playing = false)
    (hi : s.currentIndex < s.imagePaths.length) :
    (stepForward^[s.imagePaths.length] s).currentIndex = s.currentIndex ∧
    (stepBackward^[s.imagePaths.length] s).currentIndex = s.currentIndex := by
  constructor
  · rw [(stepForward_iterate s.imagePaths.length s h hi).1, Nat.add_mod_right]
    exact Nat.mod_eq_of_lt hi
  · rw [(stepBackward_iterate s.imagePaths.length s h hi).1,
      Nat.add_mul_mod_self_left]
    exact Nat.mod_eq_of_lt hi

/-- Claim C4, witness: over three images, three forward steps and three
backward steps each return the paused viewer to index 0. -/
theorem step_wraparound_witness :
    (stepForward^[3] pausedDemoState).currentIndex = 0 ∧
    (stepBackward^[3] pausedDemoState).currentIndex = 0 :=
  step_wraparound pausedDemoState rfl (by decide)

/-- Claim C5: while playing, the step-forward and step-backward commands are
complete no-ops — the state (in particular the current index and the playing
flag) is unchanged. -/
theorem steps_noop_while_playing (s : ViewerState) (h : s.playing = true) :
    handleEvent s .keyRight = s ∧ handleEvent s .keyLeft = s := by
  constructor <;> simp [handleEvent, h]

/-- Claim C5, witness: on a concrete playing state, both step commands leave
the state unchanged. -/
theorem steps_noop_witness :
    handleEvent clockDemoState .keyRight = clockDemoState ∧
    handleEvent clockDemoState .keyLeft = clockDemoState :=
  steps_noop_while_playing clockDemoState rfl

/-- Claim C6, counterexample: observing a playing viewer whose measurement
window has zero elapsed real time (`t = fpsTimer = 500`) with 30 counted
advances produces no FPS report at all — the window title stays `none`, not
a report of `0` as the claim states (the `fpsDuration >= 1` guard skips the
whole window block, which is also what prevents the division by zero). -/
theorem fps_zero_window_no_report :
    (tick fpsZeroWindowState 500).title = none ∧
    (tick fpsZeroWindowState 500).title ≠ some 0 := by
  constructor
  · decide
  · decide

/-- Claim C6, amended: the FPS statistic is produced only when the window has
lasted at least one whole second, as the advance count divided by the
window's whole elapsed seconds, and the count and window then reset; a window
with zero elapsed time produces no report (the guard also rules out a zero
divisor).  30 advances over exactly 1.0 s report 30. -/
theorem fps_window_report (s : ViewerState) (t : Nat) (hplay : s.playing = true) :
    (1 ≤ (t - s.fpsTimer) / 1000 →
        (tick s t).title =
          some ((if tickFires s t then s.frameCount + 1 else s.frameCount) /
            ((t - s.fpsTimer) / 1000)) ∧
        (tick s t).frameCount = 0 ∧ (tick s t).fpsTimer = t) ∧
    ((t - s.fpsTimer) / 1000 = 0 →
        (tick s t).title = s.title ∧ (tick s t).fpsTimer = s.fpsTimer ∧
        (tick s t).frameCount =
          (if tickFires s t then s.frameCount + 1 else s.frameCount)) ∧
    (tick fpsOneSecondState 1000).title = some 30 := by
  refine ⟨?_, ?_, by decide⟩
  · intro hw
    by_cases hf : tickFires s t <;> simp [tick, hplay, hf, hw]
  · intro hw
    by_cases hf : tickFires s t <;> simp [tick, hplay, hf, hw]

/-- Claim C6, witness: a window holding 30 counted advances, observed exactly
1.0 s after it opened, reports 30 FPS and resets its count. -/
theorem fps_window_report_witness :
    (tick fpsOneSecondState 1000).title = some 30 ∧
    (tick fpsOneSecondState 1000).frameCount = 0 :=
  ⟨(fps_window_report fpsOneSecondState 1000 rfl).2.2,
   ((fps_window_report fpsOneSecondState 1000 rfl).1 (by decide)).2.1⟩

/-- Claim C7: whenever the current index is beyond the stored textures or the
texture at the current index is null, the draw is a no-op — nothing is drawn
and nothing crashes (and, the embedding being a pure function of the state,
no playback state changes). -/
theorem invalid_frame_draw_noop (s : ViewerState)
    (h : s.textures.length ≤ s.currentIndex ∨ s.textures.get? s.currentIndex = some none) :
    renderCurrentFrame s = none := by
  rcases h with h | h
  · unfold renderCurrentFrame
    rw [List.get?_eq_none.mpr h]
  · unfold renderCurrentFrame
    rw [h]

/-- Claim C7, witness: a viewer whose only texture slot is null draws
nothing. -/
theorem invalid_frame_draw_noop_witness :
    renderCurrentFrame nullTextureState = none :=
  invalid_frame_draw_noop nullTextureState (Or.inr rfl)

/-- Claim C8: the current index starts at 0 (in bounds for a non-empty
sequence) and stays in `[0, N)` across every event command and every clock
tick, each index mutation being taken modulo the number of images. -/
theorem index_in_bounds :
    (∀ (paths : List String) (tex : List (Option Frame)) (fps w h : Nat),
        1 ≤ paths.length → (initialState paths tex fps w h).currentIndex < paths.length) ∧
    (∀ (s : ViewerState) (e : Event), s.currentIndex < s.imagePaths.length →
        (handleEvent s e).currentIndex < (handleEvent s e).imagePaths.length) ∧
    (∀ (s : ViewerState) (t : Nat), s.currentIndex < s.imagePaths.length →
        (tick s t).currentIndex < (tick s t).imagePaths.length) := by
  refine ⟨?_, ?_, ?_⟩
  · intro paths tex fps w h hp
    simpa [initialState] using hp
  · intro s e hi
    have hn : 0 < s.imagePaths.length := by omega
    cases e <;> simp [handleEvent, hi] <;> split <;>
      simp [hi, Nat.mod_lt _ hn]
  · intro s t hi
    have hn : 0 < s.imagePaths.length := by omega
    by_cases hp : s.playing
    · by_cases hf : tickFires s t <;>
        simp [tick, hp, hf] <;> split <;> simp [hi, Nat.mod_lt _ hn]
    · simp [tick, hp, hi]

/-- Claim C8, witness: the invariant holds at a concrete initial state, a
concrete paused step, and a concrete playing tick. -/
theorem index_in_bounds_witness :
    (initialState ["a"] [none] 240 1 1).currentIndex < ["a"].length ∧
    (handleEvent pausedDemoState .keyRight).currentIndex <
      (handleEvent pausedDemoState .keyRight).imagePaths.length ∧
    (tick clockDemoState 5).currentIndex < (tick clockDemoState 5).imagePaths.length :=
  ⟨index_in_bounds.1 ["a"] [none] 240 1 1 (by decide),
   index_in_bounds.2.1 pausedDemoState .keyRight (by decide),
   index_in_bounds.2.2 clockDemoState 5 (by decide)⟩

/-- Claim C9: for any target frame rate `F ≥ 1` the interval computation
`1000 / F` never divides by zero (the precondition is the only guard in the
code), and for `F > 1000` integer division collapses the interval to 0, in
which case the advance fires on every playing observation — the advance rate
is uncapped. -/
theorem clock_divisor_guard (F : Nat) (hF : 1 ≤ F) :
    F ≠ 0 ∧
    (1000 < F → msPerFrame F = 0) ∧
    (∀ (s : ViewerState) (t : Nat), s.playing = true → s.targetFPS = F →
        msPerFrame F = 0 → tickFires s t = true) := by
  refine ⟨by omega, fun h => Nat.div_eq_of_lt h, ?_⟩
  intro s t hp hFs h0
  simp [tickFires, hp, hFs, h0]

/-- Claim C9, witness: at `F = 1001` the interval is 0 and a playing viewer
fires its advance even with zero elapsed time. -/
theorem clock_divisor_guard_witness :
    msPerFrame 1001 = 0 ∧
    tickFires { clockDemoState with targetFPS := 1001 } 0 = true :=
  ⟨(clock_divisor_guard 1001 (by decide)).2.1 (by decide),
   (clock_divisor_guard 1001 (by decide)).2.2 _ 0 rfl rfl
     ((clock_divisor_guard 1001 (by decide)).2.1 (by decide))⟩

/-- Claim C10: the scan output is exactly the regular files among the
directory's direct entries whose lowercased final extension is in the
allow-list; a file living inside a subdirectory is never in the candidate
list (given the well-formedness condition that entry names contain no path
separator); and the filter accepts a name exactly when the lowercased final
extension is allowed. -/
theorem scan_direct_regular_files (dirPath : String) (d : Directory)
    (hNoSlash : ∀ e ∈ d.entries, ¬ '/' ∈ e.name.data) :
    (∀ p, p ∈ scanDirectory dirPath d ↔
        ∃ e ∈ d.entries, e.kind = .regularFile ∧ isImageFile e.name = true ∧
          p = dirPath ++ "/" ++ e.name) ∧
    (∀ sub ∈ d.entries, sub.kind = .directory →
        ∀ f ∈ d.subContents sub.name,
          ¬ (dirPath ++ "/" ++ sub.name ++ "/" ++ f.name) ∈ scanDirectory dirPath d) ∧
    (∀ name : String, isImageFile name = true ↔
        (extensionOf name.toList).map Char.toLower ∈ allowedExtensions) := by
  refine ⟨?_, ?_, ?_⟩
  · intro p
    simp only [scanDirectory, List.mem_map, List.mem_filter, Bool.and_eq_true,
      decide_eq_true_eq]
    constructor
    · rintro ⟨e, ⟨he, hk, hi⟩, rfl⟩
      exact ⟨e, he, hk, hi, rfl⟩
    · rintro ⟨e, he, hk, hi, rfl⟩
      exact ⟨e, ⟨he, hk, hi⟩, rfl⟩
  · intro sub hsub hkind f hf hmem
    simp only [scanDirectory, List.mem_map, List.mem_filter] at hmem
    obtain ⟨e, ⟨he, -⟩, heq⟩ := hmem
    have hdata := congrArg String.data heq
    simp only [String.data_append, List.append_assoc] at hdata
    have h1 := List.append_cancel_left hdata
    have h2 := List.append_cancel_left h1
    have : '/' ∈ e.name.data := by
      rw [h2]
      simp
    exact hNoSlash e he this
  · intro name
    simp only [isImageFile, decide_eq_true_eq]

/-- Claim C10, witness: in a directory holding a regular file `a.JPG` (mixed
case) and a subdirectory `s` containing `b.jpg`, the scan keeps the direct
file and never the subdirectory's file. -/
theorem scan_direct_regular_files_witness :
    ("d" ++ "/" ++ "a.JPG") ∈ scanDirectory "d" dirWithSubdir ∧
    ¬ ("d" ++ "/" ++ "s" ++ "/" ++ "b.jpg") ∈ scanDirectory "d" dirWithSubdir :=
  ⟨((scan_direct_regular_files "d" dirWithSubdir (by decide)).1 _).mpr
      ⟨⟨"a.JPG", .regularFile⟩, by decide, rfl, by decide, rfl⟩,
   (scan_direct_regular_files "d" dirWithSubdir (by decide)).2.1
      ⟨"s", .directory⟩ (by decide) rfl ⟨"b.jpg", .regularFile⟩ (by decide)⟩

end TimelapseViewer
